import Mathlib

/-!
Verification development for `src/research_server.py`, a small research
server that queries an external arXiv client, caches paper records as one
JSON file per normalized topic under a `papers` root directory, and offers
static pharmacological lookups.  The Python functions are shallowly
embedded: the filesystem state is explicit, machine-level IO is elided,
and uncaught Python exceptions are an `Except` error.
-/

namespace ResearchServer

/-- A cached paper record, as stored in `papers_info.json` (fields in the
insertion order used by `search_papers`). -/
structure PaperInfo where
  title : String
  authors : List String
  summary : String
  pdf_url : String
  published : String
deriving DecidableEq, Repr

/-- One result from the external arXiv client: `paper.get_short_id()` plus
the fields `search_papers` reads from the result object. -/
structure ArxivResult where
  short_id : String
  title : String
  authors : List String
  summary : String
  pdf_url : String
  published : String
deriving DecidableEq, Repr

/-- The record `search_papers` builds from one arXiv result. -/
def toPaperInfo (r : ArxivResult) : PaperInfo :=
  { title := r.title, authors := r.authors, summary := r.summary,
    pdf_url := r.pdf_url, published := r.published }

/-- A parsed `papers_info.json` object: paper id to record, in insertion
order (Python dicts preserve insertion order). -/
abbrev PapersDict := List (String × PaperInfo)

/-- Python `paper_id in papers_info` / `papers_info[paper_id]`:
association-list lookup (keys of a parsed JSON object are distinct). -/
def lookupD : PapersDict → String → Option PaperInfo
  | [], _ => none
  | (k, v) :: rest, paper_id => if k = paper_id then some v else lookupD rest paper_id

/-- Python `papers_info[paper_id] = info`: overwrite in place when the key
exists, append otherwise (dict assignment semantics). -/
def insertD : PapersDict → String → PaperInfo → PapersDict
  | [], paper_id, info => [(paper_id, info)]
  | (k, v) :: rest, paper_id, info =>
    if k = paper_id then (paper_id, info) :: rest else (k, v) :: insertD rest paper_id info

/-- On-disk state of one topic's `papers_info.json`: unparsable bytes
(raising `json.JSONDecodeError` on load) or a parsed dictionary. -/
inductive FileData where
  | corrupt : FileData
  | valid : PapersDict → FileData
deriving DecidableEq, Repr

/-- One entry of the `papers` root listing: a non-directory entry (skipped
by the `os.path.isdir` check in `extract_info`) or a topic directory with
its `papers_info.json` present (`some`) or absent (`none`). -/
inductive RootEntry where
  | plain : String → RootEntry
  | dir : String → Option FileData → RootEntry
deriving DecidableEq, Repr

/-- The filename of a root entry. -/
def RootEntry.name : RootEntry → String
  | .plain n => n
  | .dir n _ => n

/-- State of the `papers` cache root: `none` when the `papers` directory
itself does not exist, otherwise its listing in enumeration order. -/
abbrev FS := Option (List RootEntry)

/-- First entry of a listing carrying the given name (filenames within one
directory are distinct on a real filesystem). -/
def getEntry : List RootEntry → String → Option RootEntry
  | [], _ => none
  | e :: rest, n => if e.name = n then some e else getEntry rest n

/-- Contents of `papers/<dirname>/papers_info.json`: `none` when the root,
the topic directory or the file is absent, or the name is not a directory. -/
def cacheOf (fs : FS) (dirname : String) : Option FileData :=
  match fs with
  | none => none
  | some entries =>
    match getEntry entries dirname with
    | some (.dir _ c) => c
    | _ => none

/-- Uncaught Python exceptions the embedded operations can raise. -/
inductive PyErr where
  | fileNotFoundError : PyErr
  | fileExistsError : PyErr
deriving DecidableEq, Repr

/-- Python `os.makedirs(path, exist_ok=True)` for `path = papers/<dirname>`:
creates the root and/or the topic directory as needed; raises when a
non-directory entry already carries that name. -/
def makedirs (fs : FS) (dirname : String) : Except PyErr FS :=
  match fs with
  | none => .ok (some [.dir dirname none])
  | some entries =>
    match getEntry entries dirname with
    | some (.plain _) => .error .fileExistsError
    | some (.dir _ _) => .ok (some entries)
    | none => .ok (some (entries ++ [.dir dirname none]))

/-- The guarded read in `search_papers`: a missing or unparsable
`papers_info.json` degrades to the empty dictionary, per the
`except (FileNotFoundError, json.JSONDecodeError)` handler. -/
def loadCache (fs : FS) (dirname : String) : PapersDict :=
  match cacheOf fs dirname with
  | some (.valid d) => d
  | _ => []

/-- Replace `papers/<dirname>/papers_info.json` with a dictionary; only
used after `makedirs` succeeded, so the topic directory exists. -/
def writeEntries : List RootEntry → String → PapersDict → List RootEntry
  | [], dirname, d => [.dir dirname (some (.valid d))]
  | e :: rest, dirname, d =>
    if e.name = dirname then .dir dirname (some (.valid d)) :: rest
    else e :: writeEntries rest dirname d

/-- `json.dump(papers_info, json_file, indent=2)` applied to the state. -/
def writeCache (fs : FS) (dirname : String) (d : PapersDict) : FS :=
  match fs with
  | none => some [.dir dirname (some (.valid d))]
  | some entries => some (writeEntries entries dirname d)

/-- Python `s.lower()`: character-wise lowercasing (Lean's `Char.toLower`
covers the basic-latin range, which is all the static tables use). -/
def pyLower (s : String) : String :=
  String.mk (s.data.map Char.toLower)

/-- Per-character effect of `topic.lower().replace(" ", "_")`: both steps
act character by character. -/
def normChar (c : Char) : Char :=
  if c.toLower = ' ' then '_' else c.toLower

/-- The topic-directory normalization `topic.lower().replace(" ", "_")`
used by `search_papers` and `get_topic_papers`. -/
def normalize (topic : String) : String :=
  String.mk (topic.data.map normChar)

/-- Modelled from the spec: the external arXiv client
(`arxiv.Client.results`) is not part of this repository.  It returns the
provider's relevance-ordered results, bounded to `max_results` of them;
`max_results` of zero or less is permitted and yields no results. -/
def clientResults (client : List ArxivResult) (max_results : Int) : List ArxivResult :=
  if max_results ≤ 0 then [] else client.take max_results.toNat

/-- The merge loop of `search_papers`: assign every returned record into
the loaded dictionary under its short id, in provider order. -/
def mergeInto (papers_info : PapersDict) (papers : List ArxivResult) : PapersDict :=
  papers.foldl (fun acc p => insertD acc p.short_id (toPaperInfo p)) papers_info

/-- `search_papers(topic, max_results)`, continued: query the client, create
the topic directory, load the cached dictionary (empty on a read fault),
merge every returned record into it, write it back, and return the result
ids in provider order.  `client` stands for the external provider state. -/
def search_papers (client : List ArxivResult) (topic : String) (max_results : Int)
    (fs : FS) : Except PyErr (List String × FS) :=
  let papers := clientResults client max_results
  let dirname := normalize topic
  match makedirs fs dirname with
  | .error e => .error e
  | .ok fs1 =>
    let papers_info := loadCache fs1 dirname
    let paper_ids := papers.map (fun p => p.short_id)
    .ok (paper_ids, writeCache fs1 dirname (mergeInto papers_info papers))

/-- The hexadecimal digit character for a value below 16. -/
def hexDigit (n : Nat) : Char :=
  if n < 10 then Char.ofNat (48 + n) else Char.ofNat (87 + n)

/-- Escaping of one character inside a Python `json.dumps` string literal:
backslash, quote and the named control characters get two-character
escapes, remaining control characters a `\u00..` escape.  (Non-ASCII
`ensure_ascii` escaping is elided; no claim exercises it.) -/
def jsonEscapeChar (c : Char) : String :=
  if c = '\\' then "\\\\"
  else if c = '"' then "\\\""
  else if c = '\n' then "\\n"
  else if c = '\t' then "\\t"
  else if c = '\r' then "\\r"
  else if c.toNat = 8 then "\\b"
  else if c.toNat = 12 then "\\f"
  else if c.toNat < 32 then
    "\\u00" ++ String.mk [hexDigit (c.toNat / 16), hexDigit (c.toNat % 16)]
  else String.mk [c]

/-- A Python JSON string literal for `s`. -/
def jsonString (s : String) : String :=
  "\"" ++ String.join (s.data.map jsonEscapeChar) ++ "\""

/-- `json.dumps` rendering of a list of strings at nesting depth two under
`indent=2` (empty containers stay on one line). -/
def jsonStringList (l : List String) : String :=
  match l with
  | [] => "[]"
  | _ => "[\n" ++ String.intercalate ",\n" (l.map (fun a => "    " ++ jsonString a)) ++ "\n  ]"

/-- Models `json.dumps(papers_info[paper_id], indent=2)` for one record. -/
def dumpsPaper (info : PaperInfo) : String :=
  "\x7b\n" ++
  "  \"title\": " ++ jsonString info.title ++ ",\n" ++
  "  \"authors\": " ++ jsonStringList info.authors ++ ",\n" ++
  "  \"summary\": " ++ jsonString info.summary ++ ",\n" ++
  "  \"pdf_url\": " ++ jsonString info.pdf_url ++ ",\n" ++
  "  \"published\": " ++ jsonString info.published ++ "\n" ++
  "\x7d"

/-- Loop of `extract_info` over the `papers` root listing: non-directories,
directories without a cache file and unparsable cache files are skipped;
the first dictionary containing the id wins. -/
def extractInfoGo (paper_id : String) : List RootEntry → String
  | [] => "There\x27s no saved information related to paper " ++ paper_id ++ "."
  | e :: rest =>
    match e with
    | .dir _ (some (.valid papers_info)) =>
      match lookupD papers_info paper_id with
      | some info => dumpsPaper info
      | none => extractInfoGo paper_id rest
    | _ => extractInfoGo paper_id rest

/-- `extract_info(paper_id)`: `os.listdir(PAPER_DIR)` runs outside the
try/except, so an absent `papers` root raises `FileNotFoundError`;
otherwise the topic directories are scanned in enumeration order. -/
def extract_info (fs : FS) (paper_id : String) : Except PyErr String :=
  match fs with
  | none => .error .fileNotFoundError
  | some entries => .ok (extractInfoGo paper_id entries)

/-- The structured record `research_active_ingredient` returns. -/
structure ResearchSummary where
  ingredient : String
  research_focus : String
  papers_found : Nat
  paper_ids : List String
  key_findings : List String
  safety_profile : String
  efficacy_data : String
  contraindications : List String
deriving DecidableEq, Repr

/-- Python substring membership over character lists. -/
def containsAux (pat : List Char) : List Char → Bool
  | [] => pat.isPrefixOf []
  | c :: rest => pat.isPrefixOf (c :: rest) || containsAux pat rest

/-- Python `pat in s` on strings. -/
def strContains (s pat : String) : Bool :=
  containsAux pat.data s.data

/-- `research_active_ingredient(ingredient_name, research_focus)`: search
for papers about the ingredient, then fill the static knowledge fields by
case-insensitive substring match in a fixed priority order. -/
def research_active_ingredient (client : List ArxivResult) (fs : FS)
    (ingredient_name : String) (research_focus : String) :
    Except PyErr (ResearchSummary × FS) := do
  let search_query := ingredient_name ++ " " ++ research_focus
  let (paper_ids, fs1) ← search_papers client search_query 3 fs
  let base : ResearchSummary :=
    { ingredient := ingredient_name, research_focus := research_focus,
      papers_found := paper_ids.length, paper_ids := paper_ids,
      key_findings := [], safety_profile := "", efficacy_data := "",
      contraindications := [] }
  let research_summary :=
    if strContains (pyLower ingredient_name) "acetaminophen" then
      { base with
        safety_profile := "Generally safe when used as directed. Maximum daily dose: 3000-4000mg. Hepatotoxic in overdose.",
        efficacy_data := "Effective analgesic and antipyretic. Onset: 30-60 minutes. Duration: 4-6 hours.",
        contraindications := ["Severe liver disease", "Alcohol dependence"] }
    else if strContains (pyLower ingredient_name) "ibuprofen" then
      { base with
        safety_profile := "NSAID with anti-inflammatory properties. GI and cardiovascular risks with long-term use.",
        efficacy_data := "Effective for pain, inflammation, and fever. Onset: 20-30 minutes. Duration: 4-6 hours.",
        contraindications := ["Active GI bleeding", "Severe heart failure", "Third trimester pregnancy"] }
    else if strContains (pyLower ingredient_name) "loratadine" then
      { base with
        safety_profile := "Non-sedating antihistamine. Minimal side effects. Safe for long-term use.",
        efficacy_data := "Effective for allergic rhinitis and urticaria. Onset: 1-3 hours. Duration: 24 hours.",
        contraindications := ["Known hypersensitivity"] }
    else base
  .ok (research_summary, fs1)

/-- One potential-interaction entry. -/
structure Interaction where
  type : String
  severity : String
  description : String
deriving DecidableEq, Repr

/-- The structured record `analyze_drug_interactions` returns. -/
structure InteractionAnalysis where
  ingredients_analyzed : List String
  potential_interactions : List Interaction
  warnings : List String
  recommendations : List String
deriving DecidableEq, Repr

/-- The fixed NSAID name set. -/
def nsaids : List String := ["ibuprofen", "naproxen", "aspirin", "diclofenac"]

/-- The fixed sedating-antihistamine name set. -/
def sedating_antihistamines : List String := ["diphenhydramine", "chlorpheniramine", "doxylamine"]

/-- Python `set(...)` over the lower-cased names: the distinct elements
(membership and intersection size are all the code uses). -/
def pySet (l : List String) : List String := l.dedup

/-- `analyze_drug_interactions(ingredients)`: evaluate the fixed rule list
over the lower-cased ingredient set, accumulating matches in order. -/
def analyze_drug_interactions (ingredients : List String) : InteractionAnalysis :=
  let ingredient_set := pySet (ingredients.map pyLower)
  let nsaid_count := (ingredient_set.filter (fun i => nsaids.contains i)).length
  let potential_interactions : List Interaction :=
    if nsaid_count > 1 then
      [{ type := "Increased NSAID exposure", severity := "Moderate to High",
         description := "Multiple NSAIDs increase risk of GI bleeding and kidney damage" }]
    else []
  let warnings : List String :=
    (if nsaid_count > 1 then ["Avoid combining multiple NSAIDs"] else []) ++
    (if ingredient_set.contains "acetaminophen" then
      ["Limit alcohol consumption - increases liver toxicity risk"] else []) ++
    (if (ingredient_set.filter (fun i => sedating_antihistamines.contains i)) ≠ [] then
      ["May cause drowsiness - avoid driving or operating machinery"] else [])
  let recommendations : List String :=
    if potential_interactions = [] then
      ["No major interactions identified between these ingredients"]
    else []
  { ingredients_analyzed := ingredients, potential_interactions := potential_interactions,
    warnings := warnings, recommendations := recommendations }

/-- Python single-character `s.replace(a, b)`, character-wise. -/
def pyReplaceChar (s : String) (a b : Char) : String :=
  String.mk (s.data.map (fun c => if c = a then b else c))

/-- Python `str.title()` restricted to letter/non-letter boundaries: a
letter following a non-letter is uppercased, other letters lowercased. -/
def pyTitleGo : Bool → List Char → List Char
  | _, [] => []
  | prevAlpha, c :: rest =>
    (if prevAlpha then c.toLower else c.toUpper) :: pyTitleGo c.isAlpha rest

/-- Python `s.title()`. -/
def pyTitle (s : String) : String := String.mk (pyTitleGo false s.data)

/-- The per-paper markdown section built inside `get_topic_papers`. -/
def renderPaper (paper_id : String) (info : PaperInfo) : String :=
  "## " ++ info.title ++ "\n" ++
  "- **Paper ID**: " ++ paper_id ++ "\n" ++
  "- **Authors**: " ++ String.intercalate ", " info.authors ++ "\n" ++
  "- **Published**: " ++ info.published ++ "\n" ++
  "- **PDF URL**: [" ++ info.pdf_url ++ "](" ++ info.pdf_url ++ ")\n\n" ++
  "### Summary\n" ++ info.summary.take 500 ++ "...\n\n" ++
  "---\n\n"

/-- `get_topic_papers(topic)`: an absent cache file yields the try-first
message, an unparsable one the corrupted-data message, and a parsed cache
the markdown document of all its records. -/
def get_topic_papers (fs : FS) (topic : String) : String :=
  let topic_dir := normalize topic
  match cacheOf fs topic_dir with
  | none =>
    "# No papers found for topic: " ++ topic ++ "\n\nTry searching for papers on this topic first."
  | some .corrupt =>
    "# Error reading papers data for " ++ topic ++ "\n\nThe papers data file is corrupted."
  | some (.valid papers_data) =>
    "# Papers on " ++ pyTitle (pyReplaceChar topic '_' ' ') ++ "\n\n" ++
    "Total papers: " ++ toString papers_data.length ++ "\n\n" ++
    String.join (papers_data.map (fun p => renderPaper p.1 p.2))

/-- Whether a root entry is a topic directory whose parsed cache contains
the given paper id (the condition under which `extract_info` stops). -/
def entryHasPaper (e : RootEntry) (paper_id : String) : Bool :=
  match e with
  | .dir _ (some (.valid d)) => (lookupD d paper_id).isSome
  | _ => false

/-- The last returned record carrying the given short id, i.e. the record
that ends up in the cache after the merge loop. -/
def lastResult (papers : List ArxivResult) (k : String) : Option ArxivResult :=
  match papers with
  | [] => none
  | p :: rest =>
    match lastResult rest k with
    | some q => some q
    | none => if p.short_id = k then some p else none

/-- The NSAID interaction rule of `analyze_drug_interactions`: more than
one distinct lower-cased ingredient drawn from the NSAID set. -/
def nsaidRule (ingredients : List String) : Prop :=
  ((pySet (ingredients.map pyLower)).filter (fun i => nsaids.contains i)).length > 1

instance (ingredients : List String) : Decidable (nsaidRule ingredients) :=
  inferInstanceAs (Decidable (_ > _))

/-- The acetaminophen rule: the lower-cased set contains "acetaminophen". -/
def acetaminophenRule (ingredients : List String) : Prop :=
  (pySet (ingredients.map pyLower)).contains "acetaminophen" = true

instance (ingredients : List String) : Decidable (acetaminophenRule ingredients) :=
  inferInstanceAs (Decidable (_ = _))

/-- The sedating-antihistamine rule: the lower-cased set meets the fixed
sedating-antihistamine set. -/
def sedatingRule (ingredients : List String) : Prop :=
  ((pySet (ingredients.map pyLower)).filter
    (fun i => sedating_antihistamines.contains i)) ≠ []

instance (ingredients : List String) : Decidable (sedatingRule ingredients) :=
  inferInstanceAs (Decidable (_ ≠ _))

/-- The single potential-interaction entry the NSAID rule produces. -/
def nsaidInteractionEntry : Interaction :=
  { type := "Increased NSAID exposure", severity := "Moderate to High",
    description := "Multiple NSAIDs increase risk of GI bleeding and kidney damage" }

/-- The knowledge-table lookup of `research_active_ingredient` in isolation:
the (safety profile, efficacy data, contraindications) selected by
case-insensitive substring match in the fixed priority order. -/
def knowledgeFields (ingredient_name : String) : String × String × List String :=
  if strContains (pyLower ingredient_name) "acetaminophen" then
    ("Generally safe when used as directed. Maximum daily dose: 3000-4000mg. Hepatotoxic in overdose.",
     "Effective analgesic and antipyretic. Onset: 30-60 minutes. Duration: 4-6 hours.",
     ["Severe liver disease", "Alcohol dependence"])
  else if strContains (pyLower ingredient_name) "ibuprofen" then
    ("NSAID with anti-inflammatory properties. GI and cardiovascular risks with long-term use.",
     "Effective for pain, inflammation, and fever. Onset: 20-30 minutes. Duration: 4-6 hours.",
     ["Active GI bleeding", "Severe heart failure", "Third trimester pregnancy"])
  else if strContains (pyLower ingredient_name) "loratadine" then
    ("Non-sedating antihistamine. Minimal side effects. Safe for long-term use.",
     "Effective for allergic rhinitis and urticaria. Onset: 1-3 hours. Duration: 24 hours.",
     ["Known hypersensitivity"])
  else ("", "", [])

/-! ## Theorems -/

theorem char_toNat_ofNat_valid (n : Nat) (h : n.isValidChar) : (Char.ofNat n).toNat = n := by
  unfold Char.ofNat
  rw [dif_pos h]
  rfl

theorem char_toLower_toLower (c : Char) : c.toLower.toLower = c.toLower := by
  simp only [Char.toLower]
  by_cases h : c.toNat ≥ 65 ∧ c.toNat ≤ 90
  · rw [if_pos h]
    have hv : Nat.isValidChar (c.toNat + 32) := Or.inl (by omega)
    have ht : (Char.ofNat (c.toNat + 32)).toNat = c.toNat + 32 := char_toNat_ofNat_valid _ hv
    rw [if_neg]
    rw [ht]
    omega
  · rw [if_neg h, if_neg h]

theorem normChar_normChar (c : Char) : normChar (normChar c) = normChar c := by
  by_cases h : c.toLower = ' '
  · simp only [normChar, if_pos h]
    decide
  · simp only [normChar, if_neg h, char_toLower_toLower, if_neg h]

/-- C9: the topic normalization used to derive cache directory names
(lower-case, then replace spaces with underscores) is idempotent:
`normalize (normalize T) = normalize T` for every topic string `T`. -/
theorem C9_normalize_idempotent (topic : String) :
    normalize (normalize topic) = normalize topic := by
  have hc : normChar ∘ normChar = normChar := funext normChar_normChar
  show String.mk ((topic.data.map normChar).map normChar) = String.mk (topic.data.map normChar)
  rw [List.map_map, hc]

/-- C3: `analyze_drug_interactions(["ibuprofen", "naproxen"])` yields
exactly the one "Increased NSAID exposure" interaction entry and its
matching warning; `analyze_drug_interactions(["loratadine"])` yields no
interaction and only the generic no-major-interactions recommendation;
and on every input the three rules are evaluated independently, with all
matching warnings/interactions accumulated and the generic recommendation
emitted exactly when no interaction matched. -/
theorem C3_drug_interactions :
    ((analyze_drug_interactions ["ibuprofen", "naproxen"]).potential_interactions =
        [nsaidInteractionEntry] ∧
      nsaidInteractionEntry.type = "Increased NSAID exposure" ∧
      (analyze_drug_interactions ["ibuprofen", "naproxen"]).warnings =
        ["Avoid combining multiple NSAIDs"]) ∧
    ((analyze_drug_interactions ["loratadine"]).potential_interactions = [] ∧
      (analyze_drug_interactions ["loratadine"]).recommendations =
        ["No major interactions identified between these ingredients"]) ∧
    (∀ ingredients : List String,
      analyze_drug_interactions ingredients =
        { ingredients_analyzed := ingredients,
          potential_interactions :=
            if nsaidRule ingredients then [nsaidInteractionEntry] else [],
          warnings :=
            (if nsaidRule ingredients then ["Avoid combining multiple NSAIDs"] else []) ++
            (if acetaminophenRule ingredients then
              ["Limit alcohol consumption - increases liver toxicity risk"] else []) ++
            (if sedatingRule ingredients then
              ["May cause drowsiness - avoid driving or operating machinery"] else []),
          recommendations :=
            if ¬ nsaidRule ingredients then
              ["No major interactions identified between these ingredients"]
            else [] }) := by
  refine ⟨⟨rfl, rfl, rfl⟩, ⟨rfl, rfl⟩, ?_⟩
  intro ingredients
  by_cases h1 : nsaidRule ingredients <;>
    by_cases h2 : acetaminophenRule ingredients <;>
      by_cases h3 : sedatingRule ingredients <;>
        · simp only [nsaidRule, acetaminophenRule, sedatingRule] at h1 h2 h3
          simp [analyze_drug_interactions, nsaidRule, acetaminophenRule, sedatingRule,
            nsaidInteractionEntry, h1, h2, h3]

theorem research_active_ingredient_eq (client : List ArxivResult) (fs : FS)
    (ingredient_name research_focus : String) :
    research_active_ingredient client fs ingredient_name research_focus =
      (search_papers client (ingredient_name ++ " " ++ research_focus) 3 fs).map
        (fun x =>
          ({ ingredient := ingredient_name, research_focus := research_focus,
             papers_found := x.1.length, paper_ids := x.1, key_findings := [],
             safety_profile := (knowledgeFields ingredient_name).1,
             efficacy_data := (knowledgeFields ingredient_name).2.1,
             contraindications := (knowledgeFields ingredient_name).2.2 }, x.2)) := by
  unfold research_active_ingredient
  cases hs : search_papers client (ingredient_name ++ " " ++ research_focus) 3 fs with
  | error e => simp only [hs, Except.map, Bind.bind, Except.bind]
  | ok v =>
    obtain ⟨paper_ids, fs1⟩ := v
    simp only [hs, Except.map, Bind.bind, Except.bind, Except.ok.injEq, Prod.mk.injEq]
    unfold knowledgeFields
    by_cases ha : strContains (pyLower ingredient_name) "acetaminophen" = true <;>
      by_cases hb : strContains (pyLower ingredient_name) "ibuprofen" = true <;>
        by_cases hc : strContains (pyLower ingredient_name) "loratadine" = true <;>
          simp [ha, hb, hc]

/-- C10: every record produced by `research_active_ingredient` has
`papers_found` equal to the length of `paper_ids` and an empty
`key_findings` list. -/
theorem C10_research_summary_invariant (client : List ArxivResult) (fs : FS)
    (ingredient_name research_focus : String) (r : ResearchSummary) (fs' : FS)
    (h : research_active_ingredient client fs ingredient_name research_focus = .ok (r, fs')) :
    r.papers_found = r.paper_ids.length ∧ r.key_findings = [] := by
  rw [research_active_ingredient_eq] at h
  cases hs : search_papers client (ingredient_name ++ " " ++ research_focus) 3 fs with
  | error e => rw [hs] at h; exact absurd h (by simp [Except.map])
  | ok v =>
    rw [hs] at h
    simp only [Except.map, Except.ok.injEq, Prod.mk.injEq] at h
    rw [← h.1]
    exact ⟨rfl, rfl⟩

/-- Witness for C10 at a concrete run. -/
theorem C10_research_summary_invariant_witness :
    ({ ingredient := "aspirin", research_focus := "dosage", papers_found := 0,
       paper_ids := [], key_findings := [], safety_profile := "",
       efficacy_data := "", contraindications := [] } : ResearchSummary).papers_found =
      ({ ingredient := "aspirin", research_focus := "dosage", papers_found := 0,
         paper_ids := [], key_findings := [], safety_profile := "",
         efficacy_data := "", contraindications := [] } : ResearchSummary).paper_ids.length ∧
    ({ ingredient := "aspirin", research_focus := "dosage", papers_found := 0,
       paper_ids := [], key_findings := [], safety_profile := "",
       efficacy_data := "", contraindications := [] } : ResearchSummary).key_findings = [] :=
  C10_research_summary_invariant [] none "aspirin" "dosage" _
    (some [.dir "aspirin_dosage" (some (.valid []))]) (by rfl)

theorem containsAux_cons (pat : List Char) (c : Char) (rest : List Char) :
    containsAux pat (c :: rest) = (pat.isPrefixOf (c :: rest) || containsAux pat rest) := rfl

theorem isPrefixOf_self_append (pat l : List Char) : pat.isPrefixOf (pat ++ l) = true := by
  induction pat with
  | nil => exact List.isPrefixOf_nil_left
  | cons c rest ih =>
    rw [show (c :: rest) ++ l = c :: (rest ++ l) from rfl, List.isPrefixOf_cons₂, ih]
    simp

theorem containsAux_of_isPrefixOf {pat l : List Char} (h : pat.isPrefixOf l = true) :
    containsAux pat l = true := by
  cases l with
  | nil => exact h
  | cons c rest => rw [containsAux_cons, h, Bool.true_or]

theorem containsAux_append (pat l1 l2 : List Char) :
    containsAux pat (l1 ++ pat ++ l2) = true := by
  induction l1 with
  | nil => exact containsAux_of_isPrefixOf (isPrefixOf_self_append pat l2)
  | cons c rest ih =>
    rw [show (c :: rest) ++ pat ++ l2 = c :: (rest ++ pat ++ l2) from rfl,
      containsAux_cons, ih, Bool.or_true]

theorem extractInfoGo_append_skip (paper_id : String) :
    ∀ (pre rest : List RootEntry), (∀ e ∈ pre, entryHasPaper e paper_id = false) →
      extractInfoGo paper_id (pre ++ rest) = extractInfoGo paper_id rest
  | [], _, _ => rfl
  | e :: pre, rest, h => by
    have he := h e (List.mem_cons_self e pre)
    have ih := extractInfoGo_append_skip paper_id pre rest
      (fun x hx => h x (List.mem_cons_of_mem e hx))
    cases e with
    | plain n => simpa [extractInfoGo] using ih
    | dir n c =>
      cases c with
      | none => simpa [extractInfoGo] using ih
      | some fd =>
        cases fd with
        | corrupt => simpa [extractInfoGo] using ih
        | valid d =>
          cases hl : lookupD d paper_id with
          | some v => simp [entryHasPaper, hl] at he
          | none => simpa [extractInfoGo, hl] using ih

/-- C7: for a paper id whose record occurs in exactly one topic cache,
`extract_info` returns that record serialized as formatted JSON text, no
matter which other topic directories surround it. -/
theorem C7_extract_info_unique_topic (pre post : List RootEntry) (dirname : String)
    (d : PapersDict) (paper_id : String) (info : PaperInfo)
    (hl : lookupD d paper_id = some info)
    (hpre : ∀ e ∈ pre, entryHasPaper e paper_id = false)
    (hpost : ∀ e ∈ post, entryHasPaper e paper_id = false) :
    extract_info (some (pre ++ RootEntry.dir dirname (some (.valid d)) :: post)) paper_id =
      .ok (dumpsPaper info) := by
  refine congrArg Except.ok ?_
  rw [extractInfoGo_append_skip paper_id pre _ hpre]
  simp [extractInfoGo, hl]

/-- Witness for C7 at a concrete state: the id is cached under one topic,
beside a corrupt cache and a stray file. -/
theorem C7_extract_info_unique_topic_witness :
    extract_info
      (some [RootEntry.dir "other_topic" (some .corrupt),
             RootEntry.dir "pain_relief" (some (.valid
               [("2301.00001", ⟨"T", ["A"], "S", "U", "2023-01-01"⟩)])),
             RootEntry.plain "notes.txt"]) "2301.00001" =
      .ok (dumpsPaper ⟨"T", ["A"], "S", "U", "2023-01-01"⟩) :=
  C7_extract_info_unique_topic [RootEntry.dir "other_topic" (some .corrupt)]
    [RootEntry.plain "notes.txt"] "pain_relief"
    [("2301.00001", ⟨"T", ["A"], "S", "U", "2023-01-01"⟩)] "2301.00001"
    ⟨"T", ["A"], "S", "U", "2023-01-01"⟩ (by decide) (by decide) (by decide)

/-- C8: for a paper id present in no topic cache, `extract_info` returns
the literal not-found message, and that message contains the queried id. -/
theorem C8_extract_info_not_found (entries : List RootEntry) (paper_id : String)
    (h : ∀ e ∈ entries, entryHasPaper e paper_id = false) :
    extract_info (some entries) paper_id =
      .ok ("There\x27s no saved information related to paper " ++ paper_id ++ ".") ∧
    strContains ("There\x27s no saved information related to paper " ++ paper_id ++ ".")
      paper_id = true := by
  constructor
  · refine congrArg Except.ok ?_
    have hs := extractInfoGo_append_skip paper_id entries [] h
    rw [List.append_nil] at hs
    rw [hs]
    rfl
  · show containsAux paper_id.data
      (("There\x27s no saved information related to paper ").data ++ paper_id.data ++
        (".").data) = true
    exact containsAux_append _ _ _

/-- Witness for C8: an id absent from every cache yields the message. -/
theorem C8_extract_info_not_found_witness :
    extract_info
      (some [RootEntry.dir "pain_relief" (some (.valid
               [("2301.00001", ⟨"T", ["A"], "S", "U", "2023-01-01"⟩)])),
             RootEntry.dir "empty_topic" none]) "9999.12345" =
      .ok ("There\x27s no saved information related to paper " ++ "9999.12345" ++ ".") ∧
    strContains ("There\x27s no saved information related to paper " ++ "9999.12345" ++ ".")
      "9999.12345" = true :=
  C8_extract_info_not_found
    [RootEntry.dir "pain_relief" (some (.valid
       [("2301.00001", ⟨"T", ["A"], "S", "U", "2023-01-01"⟩)])),
     RootEntry.dir "empty_topic" none] "9999.12345" (by decide)

/-- C2 counterexample: when the `papers` root directory is absent,
`extract_info` raises `FileNotFoundError` out of `os.listdir` instead of
degrading to its sentinel result, refuting the claim for that state. -/
theorem C2_counterexample_root_absent :
    extract_info none "2301.00001" = .error .fileNotFoundError := rfl

/-- C2 amended: cache-read faults (missing cache file or invalid JSON)
degrade without an exception — `get_topic_papers` renders its try-first or
corrupted-data message, the read phase of `search_papers` degrades to the
empty dictionary, and `extract_info` never raises provided the `papers`
root directory itself exists. -/
theorem C2_amended_read_fault_degrade :
    (∀ (fs : FS) (topic : String), cacheOf fs (normalize topic) = none →
      get_topic_papers fs topic =
        "# No papers found for topic: " ++ topic ++
          "\n\nTry searching for papers on this topic first.") ∧
    (∀ (fs : FS) (topic : String), cacheOf fs (normalize topic) = some .corrupt →
      get_topic_papers fs topic =
        "# Error reading papers data for " ++ topic ++
          "\n\nThe papers data file is corrupted.") ∧
    (∀ (entries : List RootEntry) (paper_id : String),
      ∃ s, extract_info (some entries) paper_id = .ok s) ∧
    (∀ (fs : FS) (dirname : String),
      cacheOf fs dirname = none ∨ cacheOf fs dirname = some .corrupt →
      loadCache fs dirname = []) := by
  refine ⟨?_, ?_, ?_, ?_⟩
  · intro fs topic h
    simp only [get_topic_papers, h]
  · intro fs topic h
    simp only [get_topic_papers, h]
  · intro entries paper_id
    exact ⟨extractInfoGo paper_id entries, rfl⟩
  · intro fs dirname h
    unfold loadCache
    rcases h with h | h <;> rw [h]

/-- Witness for C2 amended, at an absent root and at a corrupt cache. -/
theorem C2_amended_read_fault_degrade_witness :
    get_topic_papers none "aspirin" =
      "# No papers found for topic: " ++ "aspirin" ++
        "\n\nTry searching for papers on this topic first." ∧
    get_topic_papers (some [RootEntry.dir "aspirin" (some .corrupt)]) "aspirin" =
      "# Error reading papers data for " ++ "aspirin" ++
        "\n\nThe papers data file is corrupted." ∧
    loadCache (some [RootEntry.dir "aspirin" (some .corrupt)]) "aspirin" = [] :=
  ⟨C2_amended_read_fault_degrade.1 none "aspirin" (by decide),
   C2_amended_read_fault_degrade.2.1 (some [RootEntry.dir "aspirin" (some .corrupt)])
     "aspirin" (by decide),
   C2_amended_read_fault_degrade.2.2.2 (some [RootEntry.dir "aspirin" (some .corrupt)])
     "aspirin" (Or.inr (by decide))⟩

theorem string_join_append (l1 l2 : List String) :
    String.join (l1 ++ l2) = String.join l1 ++ String.join l2 := by
  rw [String.join_eq, String.join_eq, String.join_eq]
  show String.mk _ = String.mk _
  rw [List.map_append, List.flatten_append]

theorem string_join_cons (a : String) (l : List String) :
    String.join (a :: l) = a ++ String.join l := by
  rw [String.join_eq, String.join_eq]
  show String.mk _ = String.mk (a.data ++ _)
  rw [List.map_cons, List.flatten_cons]

/-- C5: whenever a topic's parsed cache contains a paper record,
`get_topic_papers` renders that record's summary section as exactly the
first 500 characters of the stored summary followed by the ellipsis
marker, with no hypothesis on the summary's length. -/
theorem C5_summary_truncation (fs : FS) (topic : String) (d : PapersDict)
    (paper_id : String) (info : PaperInfo)
    (hc : cacheOf fs (normalize topic) = some (.valid d))
    (hm : (paper_id, info) ∈ d) :
    ∃ pre post, get_topic_papers fs topic =
      pre ++ ("### Summary\n" ++ info.summary.take 500 ++ "...\n\n") ++ post := by
  obtain ⟨s, t, rfl⟩ := List.append_of_mem hm
  simp only [get_topic_papers, hc]
  refine ⟨"# Papers on " ++ pyTitle (pyReplaceChar topic '_' ' ') ++ "\n\n" ++
    "Total papers: " ++ toString (List.length (s ++ (paper_id, info) :: t)) ++ "\n\n" ++
    String.join (s.map (fun p => renderPaper p.1 p.2)) ++
    ("## " ++ info.title ++ "\n" ++ "- **Paper ID**: " ++ paper_id ++ "\n" ++
     "- **Authors**: " ++ String.intercalate ", " info.authors ++ "\n" ++
     "- **Published**: " ++ info.published ++ "\n" ++
     "- **PDF URL**: [" ++ info.pdf_url ++ "](" ++ info.pdf_url ++ ")\n\n"),
    "---\n\n" ++ String.join (t.map (fun p => renderPaper p.1 p.2)), ?_⟩
  rw [List.map_append, string_join_append, List.map_cons, string_join_cons]
  simp only [renderPaper, String.append_assoc]

/-- Witness for C5 at a one-record cache with a short summary. -/
theorem C5_summary_truncation_witness :
    ∃ pre post,
      get_topic_papers
        (some [RootEntry.dir "pain_relief" (some (.valid
          [("2301.00001", ⟨"T", ["A"], "S", "U", "2023-01-01"⟩)]))]) "Pain Relief" =
        pre ++ ("### Summary\n" ++ ("S" : String).take 500 ++ "...\n\n") ++ post :=
  C5_summary_truncation
    (some [RootEntry.dir "pain_relief" (some (.valid
      [("2301.00001", ⟨"T", ["A"], "S", "U", "2023-01-01"⟩)]))]) "Pain Relief"
    [("2301.00001", ⟨"T", ["A"], "S", "U", "2023-01-01"⟩)] "2301.00001"
    ⟨"T", ["A"], "S", "U", "2023-01-01"⟩ (by decide) (by decide)

theorem getEntry_append_single (entries : List RootEntry) (e : RootEntry) (m : String) :
    getEntry (entries ++ [e]) m =
      match getEntry entries m with
      | some x => some x
      | none => if e.name = m then some e else none := by
  induction entries with
  | nil => rfl
  | cons a rest ih =>
    by_cases ha : a.name = m
    · simp [getEntry, ha]
    · simp [getEntry, ha, ih]

theorem cacheOf_some (entries : List RootEntry) (n : String) :
    cacheOf (some entries) n =
      match getEntry entries n with
      | some (.dir _ c) => c
      | _ => none := rfl

theorem makedirs_some (entries : List RootEntry) (n : String) :
    makedirs (some entries) n =
      match getEntry entries n with
      | some (.plain _) => .error .fileExistsError
      | some (.dir _ _) => .ok (some entries)
      | none => .ok (some (entries ++ [.dir n none])) := rfl

theorem cacheOf_makedirs {fs fs1 : FS} {n : String} (h : makedirs fs n = .ok fs1)
    (m : String) : cacheOf fs1 m = cacheOf fs m := by
  cases fs with
  | none =>
    injection h with h
    subst h
    by_cases hnm : n = m <;> simp [cacheOf, getEntry, RootEntry.name, hnm]
  | some entries =>
    rw [makedirs_some] at h
    cases hg : getEntry entries n with
    | none =>
      rw [hg] at h
      injection h with h
      subst h
      simp only [cacheOf, getEntry_append_single, RootEntry.name]
      cases hm2 : getEntry entries m with
      | some x => rfl
      | none => by_cases hnm : n = m <;> simp [hnm]
    | some e =>
      rw [hg] at h
      cases e with
      | plain nm => simp at h
      | dir nm c =>
        injection h with h
        subst h
        rfl

theorem getEntry_cons (e : RootEntry) (rest : List RootEntry) (m : String) :
    getEntry (e :: rest) m = if e.name = m then some e else getEntry rest m := rfl

theorem writeEntries_cons_hit {e : RootEntry} {n : String} (d : PapersDict)
    (rest : List RootEntry) (he : e.name = n) :
    writeEntries (e :: rest) n d = .dir n (some (.valid d)) :: rest := by
  simp [writeEntries, he]

theorem writeEntries_cons_miss {e : RootEntry} {n : String} (d : PapersDict)
    (rest : List RootEntry) (he : ¬ e.name = n) :
    writeEntries (e :: rest) n d = e :: writeEntries rest n d := by
  simp [writeEntries, he]

theorem getEntry_writeEntries_self (entries : List RootEntry) (n : String) (d : PapersDict) :
    getEntry (writeEntries entries n d) n = some (.dir n (some (.valid d))) := by
  induction entries with
  | nil => simp [writeEntries, getEntry, RootEntry.name]
  | cons e rest ih =>
    by_cases he : e.name = n
    · rw [writeEntries_cons_hit d rest he, getEntry_cons]
      simp [RootEntry.name]
    · rw [writeEntries_cons_miss d rest he, getEntry_cons, if_neg he, ih]

theorem getEntry_writeEntries_other (entries : List RootEntry) (n m : String)
    (d : PapersDict) (hm : m ≠ n) :
    getEntry (writeEntries entries n d) m = getEntry entries m := by
  induction entries with
  | nil => simp [writeEntries, getEntry, RootEntry.name, Ne.symm hm]
  | cons e rest ih =>
    by_cases he : e.name = n
    · have hem : ¬ e.name = m := by rw [he]; exact Ne.symm hm
      rw [writeEntries_cons_hit d rest he, getEntry_cons, getEntry_cons, if_neg hem]
      simp [RootEntry.name, Ne.symm hm]
    · rw [writeEntries_cons_miss d rest he, getEntry_cons, getEntry_cons, ih]

theorem cacheOf_writeCache_self (fs : FS) (n : String) (d : PapersDict) :
    cacheOf (writeCache fs n d) n = some (.valid d) := by
  cases fs with
  | none => simp [writeCache, cacheOf, getEntry, RootEntry.name]
  | some entries => simp [writeCache, cacheOf, getEntry_writeEntries_self]

theorem cacheOf_writeCache_other (fs : FS) (n m : String) (d : PapersDict) (hm : m ≠ n) :
    cacheOf (writeCache fs n d) m = cacheOf fs m := by
  cases fs with
  | none => simp [writeCache, cacheOf, getEntry, RootEntry.name, Ne.symm hm]
  | some entries => simp [writeCache, cacheOf, getEntry_writeEntries_other entries n m d hm]

/-- C1 counterexample: with `max_results = 0` and no pre-existing `papers`
root, `search_papers` returns the empty id list but still mutates the
cache state — the topic directory is created and an empty cache file is
written — refuting the no-mutation half of the claim. -/
theorem C1_counterexample_state_mutated :
    search_papers [] "pain" 0 none =
      .ok ([], some [RootEntry.dir "pain" (some (.valid []))]) ∧
    (some [RootEntry.dir "pain" (some (.valid []))] : FS) ≠ (none : FS) :=
  ⟨rfl, by simp⟩

/-- C1 amended: for `max_results ≤ 0` (and any client state)
`search_papers` returns the empty identifier list, but it does create the
topic directory and rewrite the cache file: afterwards the topic's cache
file holds exactly the previously parsed mapping (empty when the file was
absent or corrupt), and the cache of every other name is unchanged. -/
theorem C1_amended_empty_search_still_writes (client : List ArxivResult) (topic : String)
    (max_results : Int) (fs fs1 : FS)
    (hm : max_results ≤ 0) (hd : makedirs fs (normalize topic) = .ok fs1) :
    search_papers client topic max_results fs =
      .ok ([], writeCache fs1 (normalize topic) (loadCache fs (normalize topic))) ∧
    cacheOf (writeCache fs1 (normalize topic) (loadCache fs (normalize topic)))
      (normalize topic) = some (.valid (loadCache fs (normalize topic))) ∧
    ∀ m, m ≠ normalize topic →
      cacheOf (writeCache fs1 (normalize topic) (loadCache fs (normalize topic))) m =
        cacheOf fs m := by
  have hl : loadCache fs1 (normalize topic) = loadCache fs (normalize topic) := by
    unfold loadCache
    rw [cacheOf_makedirs hd]
  refine ⟨?_, cacheOf_writeCache_self .., ?_⟩
  · simp only [search_papers, clientResults, if_pos hm, hd, List.map_nil]
    rw [show mergeInto (loadCache fs1 (normalize topic)) [] =
      loadCache fs1 (normalize topic) from rfl, hl]
  · intro m hm2
    rw [cacheOf_writeCache_other _ _ _ _ hm2, cacheOf_makedirs hd]

/-- Witness for C1 amended: a negative `max_results` over an absent root. -/
theorem C1_amended_empty_search_still_writes_witness :
    search_papers [⟨"2301.00001", "T", ["A"], "S", "U", "2023-01-01"⟩] "Pain Relief" (-2)
        none =
      .ok ([], writeCache (some [RootEntry.dir "pain_relief" none]) (normalize "Pain Relief")
        (loadCache none (normalize "Pain Relief"))) ∧
    cacheOf (writeCache (some [RootEntry.dir "pain_relief" none]) (normalize "Pain Relief")
        (loadCache none (normalize "Pain Relief"))) (normalize "Pain Relief") =
      some (.valid (loadCache none (normalize "Pain Relief"))) ∧
    ∀ m, m ≠ normalize "Pain Relief" →
      cacheOf (writeCache (some [RootEntry.dir "pain_relief" none]) (normalize "Pain Relief")
          (loadCache none (normalize "Pain Relief"))) m =
        cacheOf none m :=
  C1_amended_empty_search_still_writes
    [⟨"2301.00001", "T", ["A"], "S", "U", "2023-01-01"⟩] "Pain Relief" (-2) none
    (some [RootEntry.dir "pain_relief" none]) (by decide) (by rfl)

theorem lookupD_insertD (d : PapersDict) (k : String) (v : PaperInfo) (m : String) :
    lookupD (insertD d k v) m = if k = m then some v else lookupD d m := by
  induction d with
  | nil => rfl
  | cons p rest ih =>
    obtain ⟨pk, pv⟩ := p
    by_cases hk : pk = k
    · subst hk
      by_cases hm2 : pk = m <;> simp [insertD, lookupD, hm2]
    · by_cases hm2 : pk = m
      · subst hm2
        have : ¬ k = pk := fun hkk => hk hkk.symm
        simp [insertD, hk, lookupD, this]
      · simp [insertD, hk, lookupD, hm2, ih]

theorem lookupD_mergeInto (d : PapersDict) (papers : List ArxivResult) (m : String) :
    lookupD (mergeInto d papers) m =
      match lastResult papers m with
      | some p => some (toPaperInfo p)
      | none => lookupD d m := by
  induction papers generalizing d with
  | nil => rfl
  | cons p rest ih =>
    rw [show mergeInto d (p :: rest) =
      mergeInto (insertD d p.short_id (toPaperInfo p)) rest from rfl, ih]
    cases hr : lastResult rest m with
    | some q => simp [lastResult, hr]
    | none =>
      by_cases hp : p.short_id = m <;>
        simp [lastResult, hr, lookupD_insertD, hp]

theorem lastResult_eq_none (papers : List ArxivResult) (m : String)
    (h : ∀ p ∈ papers, p.short_id ≠ m) : lastResult papers m = none := by
  induction papers with
  | nil => rfl
  | cons p rest ih =>
    have hp := h p (List.mem_cons_self ..)
    have ih2 := ih (fun x hx => h x (List.mem_cons_of_mem _ hx))
    simp [lastResult, ih2, hp]

/-- C6: `search_papers` merges the returned records into the topic's
existing parsed cache: the result state's cache for that topic is the
merged dictionary, a pre-existing entry whose id is not among the results
is preserved unchanged, and an id carried by some result maps to the last
such result's record, overwritten wholesale. -/
theorem C6_search_merges_into_cache (client : List ArxivResult) (topic : String)
    (max_results : Int) (fs : FS) (d : PapersDict)
    (hc : cacheOf fs (normalize topic) = some (.valid d)) :
    ∃ fs', search_papers client topic max_results fs =
        .ok ((clientResults client max_results).map (fun p => p.short_id), fs') ∧
      cacheOf fs' (normalize topic) =
        some (.valid (mergeInto d (clientResults client max_results))) ∧
      (∀ k, (∀ p ∈ clientResults client max_results, p.short_id ≠ k) →
        lookupD (mergeInto d (clientResults client max_results)) k = lookupD d k) ∧
      (∀ k p, lastResult (clientResults client max_results) k = some p →
        lookupD (mergeInto d (clientResults client max_results)) k =
          some (toPaperInfo p)) := by
  obtain ⟨entries, rfl⟩ : ∃ entries, fs = some entries := by
    cases fs with
    | none => simp [cacheOf] at hc
    | some entries => exact ⟨entries, rfl⟩
  have hmk : makedirs (some entries) (normalize topic) = .ok (some entries) := by
    rw [makedirs_some]
    rw [cacheOf_some] at hc
    cases hg : getEntry entries (normalize topic) with
    | none => rw [hg] at hc; simp at hc
    | some e =>
      cases e with
      | plain nm => rw [hg] at hc; simp at hc
      | dir nm c => rfl
  have hload : loadCache (some entries) (normalize topic) = d := by
    unfold loadCache
    rw [hc]
  refine ⟨writeCache (some entries) (normalize topic)
      (mergeInto d (clientResults client max_results)), ?_, ?_, ?_, ?_⟩
  · simp only [search_papers, hmk, hload]
  · exact cacheOf_writeCache_self ..
  · intro k hk
    rw [lookupD_mergeInto, lastResult_eq_none _ _ hk]
  · intro k p hp
    rw [lookupD_mergeInto, hp]

/-- Witness for C6: one overlapping id is overwritten, the other entry is
preserved, over a concrete pre-existing cache. -/
theorem C6_search_merges_into_cache_witness :
    ∃ fs', search_papers
        [⟨"2301.00001", "New title", ["B"], "New summary", "U2", "2023-02-02"⟩]
        "Pain Relief" 5
        (some [RootEntry.dir "pain_relief" (some (.valid
          [("2301.00001", ⟨"Old", ["A"], "Old summary", "U", "2023-01-01"⟩),
           ("2205.99999", ⟨"Kept", ["K"], "Kept summary", "V", "2022-05-05"⟩)]))]) =
        .ok ((clientResults
            [⟨"2301.00001", "New title", ["B"], "New summary", "U2", "2023-02-02"⟩] 5).map
          (fun p => p.short_id), fs') ∧
      cacheOf fs' (normalize "Pain Relief") =
        some (.valid (mergeInto
          [("2301.00001", ⟨"Old", ["A"], "Old summary", "U", "2023-01-01"⟩),
           ("2205.99999", ⟨"Kept", ["K"], "Kept summary", "V", "2022-05-05"⟩)]
          (clientResults
            [⟨"2301.00001", "New title", ["B"], "New summary", "U2", "2023-02-02"⟩] 5))) ∧
      (∀ k, (∀ p ∈ clientResults
            [⟨"2301.00001", "New title", ["B"], "New summary", "U2", "2023-02-02"⟩] 5,
          p.short_id ≠ k) →
        lookupD (mergeInto
          [("2301.00001", ⟨"Old", ["A"], "Old summary", "U", "2023-01-01"⟩),
           ("2205.99999", ⟨"Kept", ["K"], "Kept summary", "V", "2022-05-05"⟩)]
          (clientResults
            [⟨"2301.00001", "New title", ["B"], "New summary", "U2", "2023-02-02"⟩] 5)) k =
        lookupD
          [("2301.00001", ⟨"Old", ["A"], "Old summary", "U", "2023-01-01"⟩),
           ("2205.99999", ⟨"Kept", ["K"], "Kept summary", "V", "2022-05-05"⟩)] k) ∧
      (∀ k p, lastResult (clientResults
            [⟨"2301.00001", "New title", ["B"], "New summary", "U2", "2023-02-02"⟩] 5) k =
          some p →
        lookupD (mergeInto
          [("2301.00001", ⟨"Old", ["A"], "Old summary", "U", "2023-01-01"⟩),
           ("2205.99999", ⟨"Kept", ["K"], "Kept summary", "V", "2022-05-05"⟩)]
          (clientResults
            [⟨"2301.00001", "New title", ["B"], "New summary", "U2", "2023-02-02"⟩] 5)) k =
          some (toPaperInfo p)) :=
  C6_search_merges_into_cache
    [⟨"2301.00001", "New title", ["B"], "New summary", "U2", "2023-02-02"⟩]
    "Pain Relief" 5
    (some [RootEntry.dir "pain_relief" (some (.valid
      [("2301.00001", ⟨"Old", ["A"], "Old summary", "U", "2023-01-01"⟩),
       ("2205.99999", ⟨"Kept", ["K"], "Kept summary", "V", "2022-05-05"⟩)]))])
    [("2301.00001", ⟨"Old", ["A"], "Old summary", "U", "2023-01-01"⟩),
     ("2205.99999", ⟨"Kept", ["K"], "Kept summary", "V", "2022-05-05"⟩)]
    (by decide)

theorem research_knowledge_fields (client : List ArxivResult) (fs : FS)
    (ingredient_name research_focus : String) (r : ResearchSummary) (fs' : FS)
    (h : research_active_ingredient client fs ingredient_name research_focus = .ok (r, fs')) :
    r.safety_profile = (knowledgeFields ingredient_name).1 ∧
    r.efficacy_data = (knowledgeFields ingredient_name).2.1 ∧
    r.contraindications = (knowledgeFields ingredient_name).2.2 := by
  rw [research_active_ingredient_eq] at h
  cases hs : search_papers client (ingredient_name ++ " " ++ research_focus) 3 fs with
  | error e => rw [hs] at h; exact absurd h (by simp [Except.map])
  | ok v =>
    rw [hs] at h
    simp only [Except.map, Except.ok.injEq, Prod.mk.injEq] at h
    rw [← h.1]
    exact ⟨rfl, rfl, rfl⟩

/-- C4: `research_active_ingredient("acetaminophen", "safety")` fills a
non-empty safety profile; an ingredient matching no known substring yields
empty safety/efficacy strings and an empty contraindication list even when
papers were found; the substring match is applied to the lower-cased name
(case-insensitive); and acetaminophen wins first in the fixed priority
order whenever it matches. -/
theorem C4_ingredient_knowledge :
    (∀ (client : List ArxivResult) (fs : FS) (r : ResearchSummary) (fs' : FS),
      research_active_ingredient client fs "acetaminophen" "safety" = .ok (r, fs') →
      r.safety_profile =
        "Generally safe when used as directed. Maximum daily dose: 3000-4000mg. Hepatotoxic in overdose." ∧
      r.safety_profile ≠ "") ∧
    (∀ (client : List ArxivResult) (fs : FS) (name focus : String)
        (r : ResearchSummary) (fs' : FS),
      strContains (pyLower name) "acetaminophen" = false →
      strContains (pyLower name) "ibuprofen" = false →
      strContains (pyLower name) "loratadine" = false →
      research_active_ingredient client fs name focus = .ok (r, fs') →
      r.safety_profile = "" ∧ r.efficacy_data = "" ∧
        r.contraindications = ([] : List String)) ∧
    (∀ (client : List ArxivResult) (fs : FS) (name focus : String)
        (r : ResearchSummary) (fs' : FS),
      strContains (pyLower name) "acetaminophen" = true →
      research_active_ingredient client fs name focus = .ok (r, fs') →
      r.safety_profile =
        "Generally safe when used as directed. Maximum daily dose: 3000-4000mg. Hepatotoxic in overdose.") ∧
    (∀ (client : List ArxivResult) (fs : FS) (focus n1 n2 : String)
        (r1 r2 : ResearchSummary) (fs1 fs2 : FS),
      pyLower n1 = pyLower n2 →
      research_active_ingredient client fs n1 focus = .ok (r1, fs1) →
      research_active_ingredient client fs n2 focus = .ok (r2, fs2) →
      r1.safety_profile = r2.safety_profile ∧ r1.efficacy_data = r2.efficacy_data ∧
        r1.contraindications = r2.contraindications) ∧
    (research_active_ingredient [⟨"2301.00001", "T", ["A"], "S", "U", "2023-01-01"⟩] none
        "unknown-compound-x" "safety" =
      .ok ({ ingredient := "unknown-compound-x", research_focus := "safety",
             papers_found := 1, paper_ids := ["2301.00001"], key_findings := [],
             safety_profile := "", efficacy_data := "", contraindications := [] },
           some [RootEntry.dir "unknown-compound-x_safety" (some (.valid
             [("2301.00001", ⟨"T", ["A"], "S", "U", "2023-01-01"⟩)]))]) ∧
      (1 : Nat) ≠ 0) := by
  refine ⟨?_, ?_, ?_, ?_, rfl, by decide⟩
  · intro client fs r fs' h
    have hf := (research_knowledge_fields client fs "acetaminophen" "safety" r fs' h).1
    rw [hf]
    exact ⟨rfl, by decide⟩
  · intro client fs name focus r fs' ha hb hc h
    have hf := research_knowledge_fields client fs name focus r fs' h
    rw [hf.1, hf.2.1, hf.2.2]
    simp [knowledgeFields, ha, hb, hc]
  · intro client fs name focus r fs' ha h
    have hf := (research_knowledge_fields client fs name focus r fs' h).1
    rw [hf]
    simp [knowledgeFields, ha]
  · intro client fs focus n1 n2 r1 r2 fs1 fs2 hlow h1 h2
    have hk : knowledgeFields n1 = knowledgeFields n2 := by
      unfold knowledgeFields
      rw [hlow]
    have hf1 := research_knowledge_fields client fs n1 focus r1 fs1 h1
    have hf2 := research_knowledge_fields client fs n2 focus r2 fs2 h2
    rw [hf1.1, hf1.2.1, hf1.2.2, hf2.1, hf2.2.1, hf2.2.2, hk]
    exact ⟨rfl, rfl, rfl⟩

/-- Witness for C4: the acetaminophen branch at a concrete run. -/
theorem C4_ingredient_knowledge_witness :
    ({ ingredient := "acetaminophen", research_focus := "safety", papers_found := 0,
       paper_ids := [], key_findings := [],
       safety_profile :=
         "Generally safe when used as directed. Maximum daily dose: 3000-4000mg. Hepatotoxic in overdose.",
       efficacy_data :=
         "Effective analgesic and antipyretic. Onset: 30-60 minutes. Duration: 4-6 hours.",
       contraindications := ["Severe liver disease", "Alcohol dependence"] } :
      ResearchSummary).safety_profile =
      "Generally safe when used as directed. Maximum daily dose: 3000-4000mg. Hepatotoxic in overdose." ∧
    ({ ingredient := "acetaminophen", research_focus := "safety", papers_found := 0,
       paper_ids := [], key_findings := [],
       safety_profile :=
         "Generally safe when used as directed. Maximum daily dose: 3000-4000mg. Hepatotoxic in overdose.",
       efficacy_data :=
         "Effective analgesic and antipyretic. Onset: 30-60 minutes. Duration: 4-6 hours.",
       contraindications := ["Severe liver disease", "Alcohol dependence"] } :
      ResearchSummary).safety_profile ≠ "" :=
  C4_ingredient_knowledge.1 [] none _
    (some [RootEntry.dir "acetaminophen_safety" (some (.valid []))]) (by rfl)

end ResearchServer
